import Mathlib

/-!
Verification of the core of `homebridge-trane-home` against its
natural-language specification.

The development shallowly embeds the TypeScript sources:

* `src/throttle.ts` — the request-coalescing cache (`throttle`), embedded as
  an explicit state machine over the closure variables (`timeoutId`,
  `cachedResult`) together with the surrounding single-threaded event-loop
  environment (promise table, live `setTimeout` timers, discrete time, the
  times at which the wrapped `fn` was invoked).
* `src/houseStatus.ts` — the read model over the raw status document
  (`HouseStatus.thermostats`, `Thermostat` getters, `Zone` feature lookup).
* the `MobileClient` variant that owns the throttled status cache
  (`post` / `clearCache` and the zone mutation methods).

Machine numbers are embedded as `ℚ` plus an explicit NaN marker (`JSNum`)
where JavaScript `Number` coercion of strings matters; time and promise
identifiers are `Nat`.
-/

namespace TraneHome

/-- Outcome of a settled JavaScript promise: fulfilled with a value or
rejected with an error.  Values and errors are abstracted to `Nat`; no claim
depends on their structure. -/
inductive Outcome where
  | ok (v : Nat)
  | err (e : Nat)
deriving DecidableEq

/-- State of one `throttle(fn, wait_ms)` closure from `src/throttle.ts`,
together with its event-loop environment.

Closure variables of the source:
* `cached` — `cachedResult`: `none` when `undefined`, otherwise the identifier
  of the promise stored in it (an index into `proms`);
* `timeoutId` — the timer handle remembered by the closure, `none` when
  `undefined`.

Event-loop environment:
* `time` — current discrete time;
* `proms` — promise table: index = promise id, `none` = still pending,
  `some o` = settled with outcome `o`; each call of `fn` creates one promise;
* `fetchTimes` — the times at which `fn` was invoked (its length is the call
  count of the fetch dependency);
* `timers` — `setTimeout` table: index = timer id, `some dl` = live with
  absolute deadline `dl`, `none` = fired or cleared. -/
structure Throttle where
  wait : Nat
  time : Nat
  proms : List (Option Outcome)
  fetchTimes : List Nat
  cached : Option Nat
  timers : List (Option Nat)
  timeoutId : Option Nat
deriving DecidableEq

/-- Initial state of a fresh `throttle(fn, wait)`: nothing cached, no timer,
no fetch issued yet. -/
def Throttle.init (wait : Nat) : Throttle :=
  ⟨wait, 0, [], [], none, [], none⟩

/-- The `reset` closure of `src/throttle.ts`: `clearTimeout(timeoutId)` when a
handle is remembered, then `timeoutId = cachedResult = undefined`.  It is both
the exposed `reset()` and the callback armed by `setTimeout`. -/
def Throttle.reset (s : Throttle) : Throttle :=
  let timers :=
    match s.timeoutId with
    | some tid => s.timers.set tid none
    | none => s.timers
  { s with timers := timers, timeoutId := none, cached := none }

/-- The `doThrottle` call of `src/throttle.ts` (the spec's `get()`): if
`cachedResult` is unset, invoke `fn` — creating a fresh pending promise and
recording the invocation time — and store that promise in `cachedResult`;
return the promise in `cachedResult`. -/
def Throttle.doThrottle (s : Throttle) : Throttle × Nat :=
  match s.cached with
  | some pid => (s, pid)
  | none =>
    let pid := s.proms.length
    ({ s with
        proms := s.proms ++ [none],
        fetchTimes := s.fetchTimes ++ [s.time],
        cached := some pid }, pid)

/-- Event: the pending promise `pid` (a call of `fn`) settles with outcome
`o` at the current time.  The `.finally` attached in `doThrottle` then runs:
`timeoutId = setTimeout(reset, wait_ms)`, arming a fresh timer with deadline
`time + wait` and overwriting the remembered handle.  Settling a promise that
is not pending is a no-op. -/
def Throttle.settle (pid : Nat) (o : Outcome) (s : Throttle) : Throttle :=
  match s.proms.get? pid with
  | some none =>
    { s with
        proms := s.proms.set pid (some o),
        timers := s.timers ++ [some (s.time + s.wait)],
        timeoutId := some s.timers.length }
  | _ => s

/-- Fire every live timer whose deadline has passed, in creation order (all
timers here share the same `wait`, so creation order is deadline order): the
runtime removes the timer, then runs its callback `reset`. -/
def Throttle.fireDue (s : Throttle) : Throttle :=
  (List.range s.timers.length).foldl
    (fun s i =>
      match s.timers.get? i with
      | some (some dl) =>
        if dl ≤ s.time then Throttle.reset { s with timers := s.timers.set i none } else s
      | _ => s)
    s

/-- Event: time advances by `d`; any timers that become due fire. -/
def Throttle.tick (d : Nat) (s : Throttle) : Throttle :=
  Throttle.fireDue { s with time := s.time + d }

/-- Issue `n` consecutive `doThrottle` calls (the spec's `N` concurrent
`get()` callers: single-threaded, so concurrent callers are consecutive calls
with no intervening settle), collecting the promise each caller receives. -/
def Throttle.gets : Nat → Throttle → Throttle × List Nat
  | 0, s => (s, [])
  | n + 1, s =>
    let r := Throttle.doThrottle s
    let rest := Throttle.gets n r.1
    (rest.1, r.2 :: rest.2)

/-- A `doThrottle` call against a state with a cached promise returns that
promise and leaves the state unchanged; hence a run of such calls does. -/
theorem gets_cached (n : Nat) (s : Throttle) (p : Nat) (h : s.cached = some p) :
    Throttle.gets n s = (s, List.replicate n p) := by
  induction n with
  | zero => simp [Throttle.gets]
  | succ m ih =>
    simp [Throttle.gets, Throttle.doThrottle, h, ih, List.replicate_succ]

/-- Cache-fill scenario: from a fresh throttle, one `doThrottle` call starts
the single fetch at time `0`; after latency `a` the fetch settles with
outcome `o`. -/
def fillState (wait a : Nat) (o : Outcome) : Throttle :=
  Throttle.settle 0 o (Throttle.tick a (Throttle.doThrottle (Throttle.init wait)).1)

/-- Closed form of the cache-fill scenario: the settled promise is cached and
the invalidation timer's deadline is `a + wait` — `wait` after the response
arrived, not after the request was issued. -/
theorem fillState_eq (wait a : Nat) (o : Outcome) :
    fillState wait a o = ⟨wait, a, [some o], [0], some 0, [some (a + wait)], some 0⟩ := by
  simp [fillState, Throttle.init, Throttle.doThrottle, Throttle.tick, Throttle.fireDue,
    Throttle.settle]

/-- Advancing time over a state with exactly one live timer: if the deadline
is reached the timer fires and its `reset` callback clears the cache;
otherwise only the clock moves. -/
theorem tick_one_timer (wait t d dl : Nat) (pr : List (Option Outcome)) (ft : List Nat)
    (cc : Option Nat) :
    Throttle.tick d ⟨wait, t, pr, ft, cc, [some dl], some 0⟩ =
      if dl ≤ t + d then ⟨wait, t + d, pr, ft, none, [none], none⟩
      else ⟨wait, t + d, pr, ft, cc, [some dl], some 0⟩ := by
  simp only [Throttle.tick, Throttle.fireDue, List.length_cons, List.length_nil,
    Nat.zero_add, List.range_succ, List.range_zero, List.nil_append,
    List.foldl_cons, List.foldl_nil, List.get?_cons_zero]
  split
  · simp [Throttle.reset, List.set]
  · rfl

/-- C1 — Single-flight coalescing: from a fresh throttle, `n ≥ 1` consecutive
`get()` calls issued before the fetch settles all receive promise `0`, the
fetch dependency is invoked exactly once, and when that one promise settles
with outcome `o` every caller observes that same outcome. -/
theorem single_flight (wait n : Nat) (o : Outcome) (hn : 1 ≤ n) :
    (Throttle.gets n (Throttle.init wait)).2 = List.replicate n 0 ∧
    (Throttle.gets n (Throttle.init wait)).1.fetchTimes.length = 1 ∧
    (Throttle.settle 0 o (Throttle.gets n (Throttle.init wait)).1).proms.get? 0
      = some (some o) := by
  obtain ⟨m, rfl⟩ : ∃ m, n = m + 1 := ⟨n - 1, by omega⟩
  have h1 : Throttle.doThrottle (Throttle.init wait) =
      (⟨wait, 0, [none], [0], some 0, [], none⟩, 0) := rfl
  have h2 := gets_cached m ⟨wait, 0, [none], [0], some 0, [], none⟩ 0 rfl
  simp [Throttle.gets, h1, h2, Throttle.settle, List.replicate_succ]

/-- Closed witness for `single_flight` at `n = 3`. -/
theorem single_flight_witness :
    (Throttle.gets 3 (Throttle.init 5)).2 = List.replicate 3 0 ∧
    (Throttle.gets 3 (Throttle.init 5)).1.fetchTimes.length = 1 ∧
    (Throttle.settle 0 (Outcome.ok 7) (Throttle.gets 3 (Throttle.init 5)).1).proms.get? 0
      = some (some (Outcome.ok 7)) :=
  single_flight 5 3 (Outcome.ok 7) (by decide)

/-- C7 — Cache freshness with the timer armed from completion time: after a
fetch started at time `0` settles successfully at time `a`, the timer's
deadline is `a + wait` (completion time plus window).  A `get()` issued `b`
units later with `b < wait` returns the cached promise without a new fetch;
once a further `c` units with `wait ≤ b + c` have elapsed, the timer has
fired and the next `get()` invokes the fetch dependency a second time. -/
theorem cache_freshness (wait a b c v : Nat) (hb : b < wait) (hc : wait ≤ b + c) :
    (fillState wait a (Outcome.ok v)).cached = some 0 ∧
    (fillState wait a (Outcome.ok v)).timers = [some (a + wait)] ∧
    (Throttle.doThrottle (Throttle.tick b (fillState wait a (Outcome.ok v)))).2 = 0 ∧
    (Throttle.doThrottle (Throttle.tick b (fillState wait a (Outcome.ok v)))).1.fetchTimes
      = [0] ∧
    (Throttle.doThrottle (Throttle.tick c
        (Throttle.doThrottle (Throttle.tick b (fillState wait a (Outcome.ok v)))).1)).1.fetchTimes
      = [0, a + b + c] := by
  have h1 : Throttle.tick b (fillState wait a (Outcome.ok v)) =
      ⟨wait, a + b, [some (Outcome.ok v)], [0], some 0, [some (a + wait)], some 0⟩ := by
    rw [fillState_eq, tick_one_timer, if_neg (by omega)]
  have h2 : Throttle.doThrottle
      ⟨wait, a + b, [some (Outcome.ok v)], [0], some 0, [some (a + wait)], some 0⟩ =
      (⟨wait, a + b, [some (Outcome.ok v)], [0], some 0, [some (a + wait)], some 0⟩, 0) := rfl
  have h3 : Throttle.tick c
      ⟨wait, a + b, [some (Outcome.ok v)], [0], some 0, [some (a + wait)], some 0⟩ =
      ⟨wait, a + b + c, [some (Outcome.ok v)], [0], none, [none], none⟩ := by
    rw [tick_one_timer, if_pos (by omega)]
  refine ⟨by rw [fillState_eq], by rw [fillState_eq], ?_, ?_, ?_⟩
  · rw [h1, h2]
  · rw [h1, h2]
  · rw [h1, h2, h3]
    rfl

/-- Closed witness for `cache_freshness` at `wait = 5`, latency `1`, in-window
read after `2`, window elapse after `3` more. -/
theorem cache_freshness_witness :
    (fillState 5 1 (Outcome.ok 7)).cached = some 0 ∧
    (fillState 5 1 (Outcome.ok 7)).timers = [some 6] ∧
    (Throttle.doThrottle (Throttle.tick 2 (fillState 5 1 (Outcome.ok 7)))).2 = 0 ∧
    (Throttle.doThrottle (Throttle.tick 2 (fillState 5 1 (Outcome.ok 7)))).1.fetchTimes
      = [0] ∧
    (Throttle.doThrottle (Throttle.tick 3
        (Throttle.doThrottle (Throttle.tick 2 (fillState 5 1 (Outcome.ok 7)))).1)).1.fetchTimes
      = [0, 6] :=
  cache_freshness 5 1 2 3 7 (by decide) (by decide)

/-- C2 counterexample — the claim "the cache is left empty immediately after a
failure, so a `get()` issued after the failure settles but before the window
elapses triggers a fresh fetch" is false: with `wait = 5`, after the single
fetch rejects at time `1`, the rejected promise is still cached, the next
`get()` returns that same promise `0`, and the fetch dependency has still
been invoked only once. -/
theorem failure_not_cached_counterexample :
    (fillState 5 1 (Outcome.err 3)).cached = some 0 ∧
    (Throttle.doThrottle (fillState 5 1 (Outcome.err 3))).2 = 0 ∧
    (Throttle.doThrottle (fillState 5 1 (Outcome.err 3))).1.fetchTimes = [0] := by
  decide

/-- C2 (amended) — a fetch failure propagates to every caller awaiting that
cycle's promise, but the rejected promise stays cached until the window
elapses: a `get()` issued `b < wait` after the failure returns the same
rejected promise with no fresh fetch, and only after the window has elapsed
(`wait ≤ b + c`) does the next `get()` invoke the fetch dependency again. -/
theorem failure_cached_until_window (wait a b c e : Nat) (hb : b < wait) (hc : wait ≤ b + c) :
    (fillState wait a (Outcome.err e)).proms = [some (Outcome.err e)] ∧
    (fillState wait a (Outcome.err e)).cached = some 0 ∧
    (Throttle.doThrottle (Throttle.tick b (fillState wait a (Outcome.err e)))).2 = 0 ∧
    (Throttle.doThrottle (Throttle.tick b (fillState wait a (Outcome.err e)))).1.fetchTimes
      = [0] ∧
    (Throttle.doThrottle (Throttle.tick c
        (Throttle.tick b (fillState wait a (Outcome.err e))))).1.fetchTimes
      = [0, a + b + c] := by
  have h1 : Throttle.tick b (fillState wait a (Outcome.err e)) =
      ⟨wait, a + b, [some (Outcome.err e)], [0], some 0, [some (a + wait)], some 0⟩ := by
    rw [fillState_eq, tick_one_timer, if_neg (by omega)]
  have h3 : Throttle.tick c
      ⟨wait, a + b, [some (Outcome.err e)], [0], some 0, [some (a + wait)], some 0⟩ =
      ⟨wait, a + b + c, [some (Outcome.err e)], [0], none, [none], none⟩ := by
    rw [tick_one_timer, if_pos (by omega)]
  refine ⟨by rw [fillState_eq], by rw [fillState_eq], ?_, ?_, ?_⟩
  · rw [h1]
    rfl
  · rw [h1]
    rfl
  · rw [h1, h3]
    rfl

/-- Closed witness for `failure_cached_until_window`. -/
theorem failure_cached_until_window_witness :
    (fillState 5 1 (Outcome.err 3)).proms = [some (Outcome.err 3)] ∧
    (fillState 5 1 (Outcome.err 3)).cached = some 0 ∧
    (Throttle.doThrottle (Throttle.tick 2 (fillState 5 1 (Outcome.err 3)))).2 = 0 ∧
    (Throttle.doThrottle (Throttle.tick 2 (fillState 5 1 (Outcome.err 3)))).1.fetchTimes
      = [0] ∧
    (Throttle.doThrottle (Throttle.tick 3
        (Throttle.tick 2 (fillState 5 1 (Outcome.err 3))))).1.fetchTimes
      = [0, 6] :=
  failure_cached_until_window 5 1 2 3 3 (by decide) (by decide)

/-- Scenario for C5: a fetch starts at time `0`; `reset()` is called while it
is in flight; after latency `a` the fetch settles with outcome `o`. -/
def resetDuringFlight (wait a : Nat) (o : Outcome) : Throttle :=
  Throttle.settle 0 o
    (Throttle.tick a (Throttle.reset (Throttle.doThrottle (Throttle.init wait)).1))

/-- Closed form of the reset-during-flight scenario: the fetch still settles
and arms a timer, but nothing is cached. -/
theorem resetDuringFlight_eq (wait a : Nat) (o : Outcome) :
    resetDuringFlight wait a o = ⟨wait, a, [some o], [0], none, [some (a + wait)], some 0⟩ := by
  simp [resetDuringFlight, Throttle.init, Throttle.doThrottle, Throttle.reset,
    Throttle.tick, Throttle.fireDue, Throttle.settle]

/-- C5 counterexample — the claim "after `reset()` during an in-flight fetch,
the successful result is still stored as the new cached value, so a
subsequent `get()` before the window elapses returns it without invoking the
fetch dependency again" is false: with `wait = 5`, after `reset()` at time
`0` and a successful settle at time `1`, nothing is cached and the next
`get()` starts a second fetch (a new promise `1`, a second recorded
invocation of the dependency). -/
theorem reset_inflight_counterexample :
    (resetDuringFlight 5 1 (Outcome.ok 42)).cached = none ∧
    (Throttle.doThrottle (resetDuringFlight 5 1 (Outcome.ok 42))).2 = 1 ∧
    (Throttle.doThrottle (resetDuringFlight 5 1 (Outcome.ok 42))).1.fetchTimes = [0, 1] := by
  decide

/-- C5 (amended) — `reset()` during an in-flight fetch does not cancel the
fetch: it still settles, the callers already holding its promise receive its
outcome, and its `.finally` still arms an invalidation timer; but its result
is not stored back into the cache, so the cache stays empty and the next
`get()` invokes the fetch dependency again. -/
theorem reset_inflight (wait a : Nat) (o : Outcome) :
    (resetDuringFlight wait a o).proms = [some o] ∧
    (resetDuringFlight wait a o).timers = [some (a + wait)] ∧
    (resetDuringFlight wait a o).cached = none ∧
    (Throttle.doThrottle (resetDuringFlight wait a o)).1.fetchTimes = [0, a] := by
  refine ⟨by rw [resetDuringFlight_eq], by rw [resetDuringFlight_eq],
    by rw [resetDuringFlight_eq], ?_⟩
  rw [resetDuringFlight_eq]
  rfl

/-- C9 — `reset()` is idempotent, and on a state with nothing cached and no
armed timer handle it is a no-op. -/
theorem reset_idempotent :
    (∀ s : Throttle, Throttle.reset (Throttle.reset s) = Throttle.reset s) ∧
    (∀ s : Throttle, s.cached = none → s.timeoutId = none → Throttle.reset s = s) := by
  constructor
  · intro s
    rfl
  · intro s h1 h2
    cases s
    simp_all [Throttle.reset]

/-- Closed witness for `reset_idempotent` at the initial state. -/
theorem reset_idempotent_witness :
    Throttle.reset (Throttle.reset (Throttle.init 5)) = Throttle.reset (Throttle.init 5) ∧
    Throttle.reset (Throttle.init 5) = Throttle.init 5 :=
  ⟨reset_idempotent.1 (Throttle.init 5), reset_idempotent.2 (Throttle.init 5) rfl rfl⟩

/-- Error values observable from the embedded code.  `typeError` models a
thrown JavaScript `TypeError` (property access on `undefined`, e.g. `.map`
or `.actions` on a failed lookup).  `featureNotFound` models the typed
`FeatureNotFound` error named by the specification; the source never
constructs it — it is present only so statements can distinguish the two. -/
inductive JsError where
  | typeError
  | featureNotFound
deriving DecidableEq

/-- A JavaScript number: either NaN or a finite value (embedded as `ℚ`; no
claim depends on rounding). -/
inductive JSNum where
  | nan
  | num (q : ℚ)
deriving DecidableEq

/-- A JavaScript string as consumed by the embedded getters: `toNum` is the
value that `Number(s)` coercion yields — `some q` for a numeric string,
`none` for a non-numeric one (where `Number(s)` is NaN). -/
structure JsStr where
  toNum : Option ℚ
deriving DecidableEq

/-- The `Number(...)` coercion applied to a string. -/
def jsNumber (s : JsStr) : JSNum :=
  match s.toNum with
  | some q => JSNum.num q
  | none => JSNum.nan

/-- Modelled from the spec: `src/temperature.ts` is absent from the sources
(only its importers are present).  Per §4.1, `fahrenheitToCelcius(f) =
(f − 32) × 5/9`. -/
def fahrenheitToCelcius (f : ℚ) : ℚ :=
  (f - 32) * 5 / 9

/-- Modelled from the spec: `src/temperature.ts` is absent from the sources.
Per §4.1, `celciusToFahrenheit(c) = c × 9/5 + 32`. -/
def celciusToFahrenheit (c : ℚ) : ℚ :=
  c * 9 / 5 + 32

/-- `fahrenheitToCelcius` under JavaScript number semantics: every IEEE
arithmetic operation on NaN yields NaN, so the conversion propagates NaN. -/
def fahrenheitToCelciusJS : JSNum → JSNum
  | JSNum.nan => JSNum.nan
  | JSNum.num q => JSNum.num (fahrenheitToCelcius q)

/-- The `DEVICE_ITEM_TYPE` constant of `src/houseStatus.ts`. -/
def DEVICE_ITEM_TYPE : String := "application/vnd.nexia.device+json"

/-- The `THERMOSTAT_DEVICE_TYPE` constant of `src/houseStatus.ts`. -/
def THERMOSTAT_DEVICE_TYPE : String := "xxl_thermostat"

/-- The `MODE` union of `src/houseStatus.ts`. -/
inductive MODE where
  | COOL
  | HEAT
  | AUTO
  | OFF
deriving DecidableEq

/-- An `actions.<name>.href` endpoint reference. -/
structure ActionRef where
  href : String
deriving DecidableEq

/-- Action endpoints of a feature record.  In the source, feature records are
heterogeneous (`{name: string}[]` narrowed by unchecked casts); the model
gives every record all three endpoint fields, since the code only reads the
field matching the variant it cast to. -/
structure FeatureActions where
  set_cool_setpoint : ActionRef
  set_heat_setpoint : ActionRef
  update_thermostat_mode : ActionRef
deriving DecidableEq

/-- One entry of a zone's `features` list, discriminated by `name`. -/
structure FeatureRec where
  name : String
  actions : FeatureActions
deriving DecidableEq

/-- The `setpoints` record of a zone. -/
structure Setpoints where
  heat : ℚ
  cool : ℚ
deriving DecidableEq

/-- The `StatusZone` shape of `src/houseStatus.ts`. -/
structure StatusZone where
  id : Nat
  name : String
  type : String
  current_zone_mode : MODE
  temperature : ℚ
  setpoints : Setpoints
  features : List FeatureRec
deriving DecidableEq

/-- The `StatusThermostat` shape of `src/houseStatus.ts`. -/
structure StatusThermostat where
  id : Nat
  name : String
  type : String
  has_outdoor_temperature : Bool
  outdoor_temperature : JsStr
  has_indoor_humidity : Bool
  indoor_humidity : JsStr
  features : List FeatureRec
  zones : List StatusZone
deriving DecidableEq

/-- The `data` object of a child link: its item list and item-type tag.  The
source declares `items : Record<string, unknown>[]` and narrows by cast; the
model types the items at the shape the cast assumes. -/
structure ChildData where
  items : List StatusThermostat
  item_type : String
deriving DecidableEq

/-- One entry of `result._links.child`. -/
structure StatusChild where
  href : String
  type : String
  data : ChildData
deriving DecidableEq

/-- The `_links` object of the status result. -/
structure StatusLinks where
  child : List StatusChild
deriving DecidableEq

/-- The `result` object of the status document. -/
structure StatusResult where
  name : String
  _links : StatusLinks
deriving DecidableEq

/-- The raw `Status` document of `src/houseStatus.ts`. -/
structure Status where
  success : Bool
  result : StatusResult
deriving DecidableEq

/-- The `Thermostat` view class: a wrapper around one raw device record. -/
structure Thermostat where
  raw : StatusThermostat
deriving DecidableEq

/-- `HouseStatus.thermostats()` of `src/houseStatus.ts`:
`children.find(...)` may yield `undefined`; `found?.data.items.filter(...)`
then yields `undefined` (modelled by `Option.map`), and the unconditional
`dev.map(...)` on `undefined` throws a `TypeError`. -/
def HouseStatus.thermostats (s : Status) : Except JsError (List Thermostat) :=
  let children := s.result._links.child
  let found := children.find? (fun c => c.data.item_type == DEVICE_ITEM_TYPE)
  let dev : Option (List StatusThermostat) :=
    found.map (fun f => f.data.items.filter (fun d => d.type == THERMOSTAT_DEVICE_TYPE))
  match dev with
  | none => Except.error JsError.typeError
  | some l => Except.ok (l.map Thermostat.mk)

/-- The `outdoorTemperature` getter of the `Thermostat` class: absent when
the `has_outdoor_temperature` flag is false, otherwise the Celsius conversion
of the `Number(...)` coercion of the `outdoor_temperature` string. -/
def Thermostat.outdoorTemperature (t : Thermostat) : Option JSNum :=
  if t.raw.has_outdoor_temperature then
    some (fahrenheitToCelciusJS (jsNumber t.raw.outdoor_temperature))
  else
    none

/-- The `_thermostatFeature` getter of the `Zone` class: `find` by the
`'thermostat'` discriminator; `undefined` when absent (the source hides this
with an unchecked cast). -/
def Zone._thermostatFeature (z : StatusZone) : Option FeatureRec :=
  z.features.find? (fun f => f.name == "thermostat")

/-- The `_thermostatModeFeature` getter of the `Zone` class: `find` by the
`'thermostat_mode'` discriminator; `undefined` when absent. -/
def Zone._thermostatModeFeature (z : StatusZone) : Option FeatureRec :=
  z.features.find? (fun f => f.name == "thermostat_mode")

/-- The JSON body of a mutation request: `{value}`, `{cool}` or `{heat}`. -/
inductive Body where
  | value (m : MODE)
  | cool (f : ℚ)
  | heat (f : ℚ)
deriving DecidableEq

/-- A mutation request as handed to the transport: endpoint and body. -/
structure Request where
  url : String
  json : Body
deriving DecidableEq

/-- `MobileClient.clearCache()` of the throttling client: `this._status.reset()`. -/
def MobileClient.clearCache (s : Throttle) : Throttle :=
  Throttle.reset s

/-- `MobileClient.post(url, json)` of the throttling client: `await` the
transport post, then `this.clearCache()`.  The injected transport outcome is
`dep`.  When the transport rejects, the exception propagates from the `await`
and control never reaches `clearCache`. -/
def MobileClient.post (req : Request) (dep : Outcome) (s : Throttle) : Throttle × Outcome :=
  match dep with
  | Outcome.ok v => (MobileClient.clearCache s, Outcome.ok v)
  | Outcome.err e =>
    let _ := req
    (s, Outcome.err e)

/-- `Zone.setMode(value)`: read the mode feature's endpoint (a `TypeError`
when the feature is absent, before any request is issued), then
`client.post`.  The second component is `Except.error` for a synchronous
crash, `Except.ok o` when a request was issued and its promise settled with
outcome `o`. -/
def Zone.setMode (z : StatusZone) (value : MODE) (dep : Outcome) (s : Throttle) :
    Throttle × Except JsError Outcome :=
  match Zone._thermostatModeFeature z with
  | none => (s, Except.error JsError.typeError)
  | some f =>
    let r := MobileClient.post ⟨f.actions.update_thermostat_mode.href, Body.value value⟩ dep s
    (r.1, Except.ok r.2)

/-- `Zone.setCoolSetpoint(cool)`: convert Celsius to Fahrenheit, read the
thermostat feature's endpoint (a `TypeError` when absent), then `client.post`. -/
def Zone.setCoolSetpoint (z : StatusZone) (cool : ℚ) (dep : Outcome) (s : Throttle) :
    Throttle × Except JsError Outcome :=
  let coolF := celciusToFahrenheit cool
  match Zone._thermostatFeature z with
  | none => (s, Except.error JsError.typeError)
  | some f =>
    let r := MobileClient.post ⟨f.actions.set_cool_setpoint.href, Body.cool coolF⟩ dep s
    (r.1, Except.ok r.2)

/-- `Zone.setHeatSetpoint(heat)`: convert Celsius to Fahrenheit, read the
thermostat feature's endpoint (a `TypeError` when absent), then `client.post`. -/
def Zone.setHeatSetpoint (z : StatusZone) (heat : ℚ) (dep : Outcome) (s : Throttle) :
    Throttle × Except JsError Outcome :=
  let heatF := celciusToFahrenheit heat
  match Zone._thermostatFeature z with
  | none => (s, Except.error JsError.typeError)
  | some f =>
    let r := MobileClient.post ⟨f.actions.set_heat_setpoint.href, Body.heat heatF⟩ dep s
    (r.1, Except.ok r.2)

/-- A `thermostat_mode` feature record fixture. -/
def modeFeature : FeatureRec :=
  ⟨"thermostat_mode", ⟨⟨""⟩, ⟨""⟩, ⟨"https://example/mode"⟩⟩⟩

/-- A `thermostat` feature record fixture. -/
def thermFeature : FeatureRec :=
  ⟨"thermostat", ⟨⟨"https://example/cool"⟩, ⟨"https://example/heat"⟩, ⟨""⟩⟩⟩

/-- A zone carrying both recognized features. -/
def fullZone : StatusZone :=
  ⟨10, "Main", "xxl_zone", MODE.COOL, 75, ⟨68, 72⟩, [thermFeature, modeFeature]⟩

/-- A zone whose features list contains only the `thermostat_mode` entry. -/
def modeOnlyZone : StatusZone :=
  ⟨11, "ModeOnly", "xxl_zone", MODE.AUTO, 70, ⟨68, 72⟩, [modeFeature]⟩

/-- A zone whose features list contains only the `thermostat` entry. -/
def thermOnlyZone : StatusZone :=
  ⟨12, "ThermOnly", "xxl_zone", MODE.HEAT, 70, ⟨68, 72⟩, [thermFeature]⟩

/-- A status document whose child-link collection is empty. -/
def emptyLinksDoc : Status :=
  ⟨true, ⟨"house", ⟨[]⟩⟩⟩

/-- A status document with one child link whose item type is not the device
collection marker. -/
def noDeviceLinkDoc : Status :=
  ⟨true, ⟨"house", ⟨[⟨"https://example/a", "application/json",
    ⟨[], "application/vnd.nexia.other+json"⟩⟩]⟩⟩⟩

/-- C3 — the claim says a document with no device link yields
`thermostats() == []`; the code instead reaches `dev.map` with `dev`
`undefined` and throws a `TypeError`.  Evaluating the embedded code at the
failing inputs exhibits the crash. -/
theorem thermostats_missing_link_throws :
    HouseStatus.thermostats emptyLinksDoc = Except.error JsError.typeError ∧
    HouseStatus.thermostats noDeviceLinkDoc = Except.error JsError.typeError ∧
    HouseStatus.thermostats noDeviceLinkDoc ≠ Except.ok [] := by
  refine ⟨rfl, rfl, ?_⟩
  intro h
  exact Except.noConfusion h

/-- C8 — Device filtering preserves order: when the device-collection link is
found, `thermostats()` succeeds, its raw records form an order-preserving
sublist of the link's items, every returned record carries the thermostat
type tag, and every item carrying the tag is returned. -/
theorem device_filtering (s : Status) (f : StatusChild)
    (h : s.result._links.child.find? (fun c => c.data.item_type == DEVICE_ITEM_TYPE)
      = some f) :
    ∃ ts : List Thermostat,
      HouseStatus.thermostats s = Except.ok ts ∧
      List.Sublist (ts.map Thermostat.raw) f.data.items ∧
      (∀ t ∈ ts, t.raw.type = THERMOSTAT_DEVICE_TYPE) ∧
      (∀ d ∈ f.data.items, d.type = THERMOSTAT_DEVICE_TYPE → d ∈ ts.map Thermostat.raw) := by
  refine ⟨(f.data.items.filter (fun d => d.type == THERMOSTAT_DEVICE_TYPE)).map Thermostat.mk,
    ?_, ?_, ?_, ?_⟩
  · simp [HouseStatus.thermostats, h]
  · have hmm : ((f.data.items.filter (fun d => d.type == THERMOSTAT_DEVICE_TYPE)).map
        Thermostat.mk).map Thermostat.raw
        = f.data.items.filter (fun d => d.type == THERMOSTAT_DEVICE_TYPE) := by
      simp [List.map_map, Function.comp_def]
    rw [hmm]
    exact List.filter_sublist _
  · intro t ht
    simp only [List.mem_map] at ht
    obtain ⟨d, hd, rfl⟩ := ht
    simpa using (List.mem_filter.mp hd).2
  · intro d hd hdt
    simp only [List.map_map, Function.comp_def]
    simpa [List.mem_filter, hdt] using hd

/-- A thermostat device record fixture with an upstairs zone. -/
def thermX : StatusThermostat :=
  ⟨1, "Up", "xxl_thermostat", true, ⟨some 70⟩, true, ⟨some 40⟩, [], [fullZone]⟩

/-- A non-thermostat device record fixture. -/
def otherDev : StatusThermostat :=
  ⟨2, "Bridge", "other_device", false, ⟨none⟩, false, ⟨none⟩, [], []⟩

/-- A second thermostat device record fixture. -/
def thermY : StatusThermostat :=
  ⟨3, "Down", "xxl_thermostat", false, ⟨none⟩, false, ⟨none⟩, [], []⟩

/-- A device-collection child link holding a mix of thermostat and
non-thermostat items. -/
def deviceChild : StatusChild :=
  ⟨"https://example/devices", "application/json",
    ⟨[thermX, otherDev, thermY], DEVICE_ITEM_TYPE⟩⟩

/-- A status document with the mixed device-collection link. -/
def mixedDoc : Status :=
  ⟨true, ⟨"house", ⟨[deviceChild]⟩⟩⟩

/-- Closed witness for `device_filtering` on the mixed document. -/
theorem device_filtering_witness :
    ∃ ts : List Thermostat,
      HouseStatus.thermostats mixedDoc = Except.ok ts ∧
      List.Sublist (ts.map Thermostat.raw) deviceChild.data.items ∧
      (∀ t ∈ ts, t.raw.type = THERMOSTAT_DEVICE_TYPE) ∧
      (∀ d ∈ deviceChild.data.items, d.type = THERMOSTAT_DEVICE_TYPE →
        d ∈ ts.map Thermostat.raw) :=
  device_filtering mixedDoc deviceChild rfl

/-- C10 — the `outdoorTemperature` getter is total: absent when the flag is
false regardless of the string's content; when the flag is true it is the
Celsius conversion of the `Number(...)` coercion of the string, and for a
non-numeric string that is NaN — never an exception and never absence. -/
theorem outdoor_temperature_total (t : Thermostat) :
    (t.raw.has_outdoor_temperature = false → Thermostat.outdoorTemperature t = none) ∧
    (t.raw.has_outdoor_temperature = true →
      Thermostat.outdoorTemperature t
        = some (fahrenheitToCelciusJS (jsNumber t.raw.outdoor_temperature))) ∧
    (t.raw.has_outdoor_temperature = true → t.raw.outdoor_temperature.toNum = none →
      Thermostat.outdoorTemperature t = some JSNum.nan) := by
  refine ⟨fun h => ?_, fun h => ?_, fun h h2 => ?_⟩
  · simp [Thermostat.outdoorTemperature, h]
  · simp [Thermostat.outdoorTemperature, h]
  · simp [Thermostat.outdoorTemperature, h, jsNumber, h2, fahrenheitToCelciusJS]

/-- A thermostat view whose outdoor-temperature flag is set but whose string
is non-numeric. -/
def nanOutdoorTherm : Thermostat :=
  ⟨⟨7, "T", "xxl_thermostat", true, ⟨none⟩, false, ⟨none⟩, [], []⟩⟩

/-- A thermostat view whose outdoor-temperature flag is unset. -/
def noOutdoorTherm : Thermostat :=
  ⟨⟨8, "U", "xxl_thermostat", false, ⟨some 55⟩, false, ⟨none⟩, [], []⟩⟩

/-- Closed witness for `outdoor_temperature_total`: the flag-false case is
absent, the non-numeric flag-true case is NaN. -/
theorem outdoor_temperature_total_witness :
    Thermostat.outdoorTemperature noOutdoorTherm = none ∧
    Thermostat.outdoorTemperature nanOutdoorTherm
      = some (fahrenheitToCelciusJS (jsNumber nanOutdoorTherm.raw.outdoor_temperature)) ∧
    Thermostat.outdoorTemperature nanOutdoorTherm = some JSNum.nan :=
  ⟨(outdoor_temperature_total noOutdoorTherm).1 rfl,
   (outdoor_temperature_total nanOutdoorTherm).2.1 rfl,
   (outdoor_temperature_total nanOutdoorTherm).2.2 rfl rfl⟩

/-- A throttle state holding a valid cached status (one fetch completed at
time `0`, promise `0` cached, timer armed). -/
def cachedState : Throttle := fillState 5 0 (Outcome.ok 1)

/-- C4 counterexample — the claim says every `setMode` call invalidates the
status cache regardless of the mutation outcome; but when the transport post
rejects, the exception propagates before `clearCache()` runs: the previously
cached promise `0` is still cached and the next `status()` read returns it
without invoking the fetch dependency again. -/
theorem write_invalidation_counterexample :
    (Zone.setMode fullZone MODE.HEAT (Outcome.err 9) cachedState).1.cached = some 0 ∧
    (Zone.setMode fullZone MODE.HEAT (Outcome.err 9) cachedState).2
      = Except.ok (Outcome.err 9) ∧
    (Throttle.doThrottle
      (Zone.setMode fullZone MODE.HEAT (Outcome.err 9) cachedState).1).1.fetchTimes = [0] := by
  refine ⟨rfl, rfl, rfl⟩

/-- C4 (amended) — for a zone carrying both recognized features, each of
`setMode`/`setCoolSetpoint`/`setHeatSetpoint` issues the mutation and, when
the transport post fulfils, invalidates the cache so the next `status()` read
invokes the fetch dependency again; when the transport post rejects, the
rejection propagates and the cache state is left unchanged. -/
theorem write_invalidation (z : StatusZone) (fm ft : FeatureRec) (m : MODE) (cq hq : ℚ)
    (v e : Nat) (s : Throttle)
    (hm : Zone._thermostatModeFeature z = some fm)
    (ht : Zone._thermostatFeature z = some ft) :
    ((Zone.setMode z m (Outcome.ok v) s).1.cached = none ∧
      (Throttle.doThrottle (Zone.setMode z m (Outcome.ok v) s).1).1.fetchTimes.length
        = s.fetchTimes.length + 1) ∧
    ((Zone.setCoolSetpoint z cq (Outcome.ok v) s).1.cached = none ∧
      (Throttle.doThrottle (Zone.setCoolSetpoint z cq (Outcome.ok v) s).1).1.fetchTimes.length
        = s.fetchTimes.length + 1) ∧
    ((Zone.setHeatSetpoint z hq (Outcome.ok v) s).1.cached = none ∧
      (Throttle.doThrottle (Zone.setHeatSetpoint z hq (Outcome.ok v) s).1).1.fetchTimes.length
        = s.fetchTimes.length + 1) ∧
    Zone.setMode z m (Outcome.err e) s = (s, Except.ok (Outcome.err e)) ∧
    Zone.setCoolSetpoint z cq (Outcome.err e) s = (s, Except.ok (Outcome.err e)) ∧
    Zone.setHeatSetpoint z hq (Outcome.err e) s = (s, Except.ok (Outcome.err e)) := by
  simp [Zone.setMode, Zone.setCoolSetpoint, Zone.setHeatSetpoint, hm, ht,
    MobileClient.post, MobileClient.clearCache, Throttle.reset, Throttle.doThrottle]

/-- Closed witness for `write_invalidation` on the full-featured zone and a
filled cache. -/
theorem write_invalidation_witness :
    ((Zone.setMode fullZone MODE.HEAT (Outcome.ok 1) cachedState).1.cached = none ∧
      (Throttle.doThrottle
        (Zone.setMode fullZone MODE.HEAT (Outcome.ok 1) cachedState).1).1.fetchTimes.length
        = cachedState.fetchTimes.length + 1) ∧
    ((Zone.setCoolSetpoint fullZone 20 (Outcome.ok 1) cachedState).1.cached = none ∧
      (Throttle.doThrottle
        (Zone.setCoolSetpoint fullZone 20 (Outcome.ok 1) cachedState).1).1.fetchTimes.length
        = cachedState.fetchTimes.length + 1) ∧
    ((Zone.setHeatSetpoint fullZone 21 (Outcome.ok 1) cachedState).1.cached = none ∧
      (Throttle.doThrottle
        (Zone.setHeatSetpoint fullZone 21 (Outcome.ok 1) cachedState).1).1.fetchTimes.length
        = cachedState.fetchTimes.length + 1) ∧
    Zone.setMode fullZone MODE.HEAT (Outcome.err 9) cachedState
      = (cachedState, Except.ok (Outcome.err 9)) ∧
    Zone.setCoolSetpoint fullZone 20 (Outcome.err 9) cachedState
      = (cachedState, Except.ok (Outcome.err 9)) ∧
    Zone.setHeatSetpoint fullZone 21 (Outcome.err 9) cachedState
      = (cachedState, Except.ok (Outcome.err 9)) :=
  write_invalidation fullZone modeFeature thermFeature MODE.HEAT 20 21 1 9 cachedState rfl rfl

/-- C6 counterexample — the claim says `setCoolSetpoint` on a zone with no
`thermostat` feature fails with a clear `FeatureNotFound` error rather than
crashing on access to a missing field; the code instead crashes with a
`TypeError` (reading `.actions` of the `undefined` returned by the failed
feature lookup), which is not the `FeatureNotFound` error. -/
theorem feature_not_found_counterexample :
    (Zone.setCoolSetpoint modeOnlyZone 20 (Outcome.ok 0) (Throttle.init 5)).2
      = Except.error JsError.typeError ∧
    JsError.typeError ≠ JsError.featureNotFound := by
  refine ⟨rfl, ?_⟩
  intro h
  exact JsError.noConfusion h

/-- C6 (amended) — on a zone whose features list has no `thermostat` entry,
`setCoolSetpoint` and `setHeatSetpoint` throw a `TypeError` from accessing a
field of `undefined`, before any request is issued and with the cache state
unchanged; symmetrically `setMode` on a zone with no `thermostat_mode`
entry.  The failure is not a typed `FeatureNotFound`. -/
theorem feature_absence_crashes (z : StatusZone) (c hq : ℚ) (m : MODE) (dep : Outcome)
    (s : Throttle) :
    (Zone._thermostatFeature z = none →
      Zone.setCoolSetpoint z c dep s = (s, Except.error JsError.typeError) ∧
      Zone.setHeatSetpoint z hq dep s = (s, Except.error JsError.typeError)) ∧
    (Zone._thermostatModeFeature z = none →
      Zone.setMode z m dep s = (s, Except.error JsError.typeError)) := by
  constructor
  · intro h
    constructor
    · simp [Zone.setCoolSetpoint, h]
    · simp [Zone.setHeatSetpoint, h]
  · intro h
    simp [Zone.setMode, h]

/-- Closed witness for `feature_absence_crashes` on the single-feature zones. -/
theorem feature_absence_crashes_witness :
    (Zone.setCoolSetpoint modeOnlyZone 20 (Outcome.ok 0) (Throttle.init 5)
        = (Throttle.init 5, Except.error JsError.typeError) ∧
      Zone.setHeatSetpoint modeOnlyZone 21 (Outcome.ok 0) (Throttle.init 5)
        = (Throttle.init 5, Except.error JsError.typeError)) ∧
    Zone.setMode thermOnlyZone MODE.COOL (Outcome.ok 0) (Throttle.init 5)
      = (Throttle.init 5, Except.error JsError.typeError) :=
  ⟨(feature_absence_crashes modeOnlyZone 20 21 MODE.COOL (Outcome.ok 0)
      (Throttle.init 5)).1 rfl,
   (feature_absence_crashes thermOnlyZone 20 21 MODE.COOL (Outcome.ok 0)
      (Throttle.init 5)).2 rfl⟩

end TraneHome
